import Mathlib

/-!
Verification of the t3-twitter client slice: the `Timeline` component
(`src/components/Timeline.tsx`) and the per-user feed page
(`src/pages/[name].tsx`), shallowly embedded in Lean.  JavaScript numbers
appearing in the scroll computation are modelled by `JSNum` (rationals
extended with the IEEE special values the relevant operations can produce);
external-library behaviour the component relies on (react-query's
`useInfiniteQuery` result and `setQueryData`, dayjs's `relativeTime`
plugin) is modelled from those libraries' documented semantics.
-/

namespace T3Twitter

/-! ## JavaScript number semantics (for the scroll computation) -/

/-- A JavaScript number as far as the scroll-position arithmetic needs it:
a finite value (the DOM metrics are exact small integers, so a rational
carries them losslessly), the two infinities, or NaN.  Signed zero is not
distinguished: every zero produced here is `+0`. -/
inductive JSNum where
  | num (q : ℚ)
  | posInf
  | negInf
  | nan
  deriving Repr, DecidableEq

/-- JavaScript truthiness of a number: `0` and `NaN` are falsy. -/
def jsTruthy : JSNum → Bool
  | .num q => decide (q ≠ 0)
  | .nan => false
  | _ => true

/-- JavaScript `a || b` on numbers: returns `a` when truthy, else `b`. -/
def jsOr (a b : JSNum) : JSNum := if jsTruthy a then a else b

/-- JavaScript subtraction `a - b` (IEEE-754 semantics on the modelled values). -/
def jsSub : JSNum → JSNum → JSNum
  | .nan, _ => .nan
  | _, .nan => .nan
  | .num a, .num b => .num (a - b)
  | .posInf, .num _ => .posInf
  | .num _, .posInf => .negInf
  | .negInf, .num _ => .negInf
  | .num _, .negInf => .posInf
  | .posInf, .posInf => .nan
  | .negInf, .negInf => .nan
  | .posInf, .negInf => .posInf
  | .negInf, .posInf => .negInf

/-- JavaScript division `a / b`: division by (positive) zero yields a signed
infinity, and `0 / 0` yields `NaN`. -/
def jsDiv : JSNum → JSNum → JSNum
  | .nan, _ => .nan
  | _, .nan => .nan
  | .num a, .num b =>
      if b ≠ 0 then .num (a / b)
      else if a > 0 then .posInf
      else if a < 0 then .negInf
      else .nan
  | .num _, .posInf => .num 0
  | .num _, .negInf => .num 0
  | .posInf, .num b => if b < 0 then .negInf else .posInf
  | .negInf, .num b => if b < 0 then .posInf else .negInf
  | _, _ => .nan

/-- JavaScript multiplication `a * b`: `Infinity * 0` is `NaN`, NaN propagates. -/
def jsMul : JSNum → JSNum → JSNum
  | .nan, _ => .nan
  | _, .nan => .nan
  | .num a, .num b => .num (a * b)
  | .posInf, .num b => if b > 0 then .posInf else if b < 0 then .negInf else .nan
  | .num a, .posInf => if a > 0 then .posInf else if a < 0 then .negInf else .nan
  | .negInf, .num b => if b > 0 then .negInf else if b < 0 then .posInf else .nan
  | .num a, .negInf => if a > 0 then .negInf else if a < 0 then .posInf else .nan
  | .posInf, .posInf => .posInf
  | .negInf, .negInf => .posInf
  | .posInf, .negInf => .negInf
  | .negInf, .posInf => .negInf

/-- JavaScript `a > b`: any comparison involving `NaN` is false. -/
def jsGt : JSNum → JSNum → Bool
  | .nan, _ => false
  | _, .nan => false
  | .num a, .num b => decide (a > b)
  | .posInf, .posInf => false
  | .posInf, _ => true
  | _, .posInf => false
  | .negInf, _ => false
  | .num _, .negInf => true

/-! ## Data model (the `Post` shape consumed from the API) -/

/-- `{ name: string, image?: string | absent }`. -/
structure Author where
  name : String
  image : Option String
  deriving Repr, DecidableEq

/-- `{ id, text, createdAt, author, likes }`; `createdAt` is an epoch
timestamp in milliseconds, `likes` the list of liking-user identifiers. -/
structure Tweet where
  id : String
  text : String
  createdAt : Int
  author : Author
  likes : List String
  deriving Repr, DecidableEq

/-- One page of the `tweet.timeline` query:
`{ tweets: Post[], nextCursor: cursor | absent }`.  A JavaScript object
with no `nextCursor` property reads back `undefined`, i.e. `none`. -/
structure TimelinePage where
  tweets : List Tweet
  nextCursor : Option String
  deriving Repr, DecidableEq

/-- react-query's `InfiniteData`: the fetched pages in fetch order plus the
page parameters used to fetch them. -/
structure InfiniteTimelineData where
  pages : List TimelinePage
  pageParams : List (Option String)
  deriving Repr, DecidableEq

/-- The `action` argument of `updateCache`: `"like" | "unlike"`. -/
inductive Action where
  | like
  | unlike
  deriving Repr, DecidableEq

/-! ## Per-user feed page (`src/pages/[name].tsx`) and the query input -/

/-- The `{ author: { name } }` object: `name` is `router.query.name`, which
is `undefined` (`none`) while the route is unresolved or the parameter is
absent. -/
structure AuthorNameFilter where
  name : Option String
  deriving Repr, DecidableEq

/-- The `where` object the page builds: `{ author: { name } }`. -/
structure TimelineWhere where
  author : AuthorNameFilter
  deriving Repr, DecidableEq

/-- The input of the `tweet.timeline` query:
`{ limit: integer, where?: { author: { name } } }` (`where` is a reserved
word in Lean, hence the field name `whereFilter`). -/
structure TimelineInput where
  limit : Nat
  whereFilter : Option TimelineWhere
  deriving Repr, DecidableEq

/-- `UsePage` (src/pages/[name].tsx, lines 4-19): reads
`router.query.name` and passes `where={{ author: { name } }}` as a JSX
prop to `Timeline`. -/
def usePageWhereProp (routeName : Option String) : TimelineWhere :=
  { author := { name := routeName } }

/-- `Timeline` (src/components/Timeline.tsx, lines 194-201): the component
is declared with no props, so whatever the page passes is dropped; the
infinite query is always issued with input `{ limit: 10 }` and no `where`
member. -/
def timelineQueryInput : TimelineInput :=
  { limit := 10, whereFilter := none }

/-! ## `updateCache` (src/components/Timeline.tsx, lines 80-129) -/

/-- The per-tweet branch of the updater (lines 112-119): the tweet whose
`id` equals `variables.tweetId` gets
`likes: action === "like" ? [data.userId] : []`; every other tweet is
returned as-is. -/
def patchLikes (tweetId userId : String) (action : Action) (tweet : Tweet) : Tweet :=
  if tweet.id = tweetId then
    { tweet with likes := if action = Action.like then [userId] else [] }
  else tweet

/-- The updater passed to `client.setQueryData` (lines 105-127).  react-query
invokes it with the currently cached value, `undefined` when the entry is
uninitialized; the code casts it and immediately reads `.pages`, so an
absent entry raises a `TypeError` (modelled as `Except.error`).  Each page
is rebuilt as the object literal `{ tweets: ... }` (lines 110-121), which
carries no `nextCursor` property — reading it afterwards yields
`undefined`, i.e. `none`. -/
def updateCacheUpdater (tweetId userId : String) (action : Action) :
    Option InfiniteTimelineData → Except String InfiniteTimelineData
  | none => Except.error "TypeError: cannot read properties of undefined (reading pages)"
  | some newData =>
      Except.ok
        { newData with
          pages := newData.pages.map fun page =>
            { tweets := page.tweets.map (patchLikes tweetId userId action),
              nextCursor := none } }

/-- `updateCache` as seen from the cache entry it targets: `setQueryData`
runs the updater on the current entry and commits its result; an exception
thrown by the updater propagates. -/
def updateCache (tweetId userId : String) (action : Action)
    (cached : Option InfiniteTimelineData) : Except String (Option InfiniteTimelineData) :=
  (updateCacheUpdater tweetId userId action cached).map some

/-- All tweets in all pages of a cached value, page order first. -/
def cacheTweets (d : InfiniteTimelineData) : List Tweet :=
  d.pages.flatMap fun page => page.tweets

/-! ## `Timeline` rendering (src/components/Timeline.tsx, lines 194-226) -/

/-- Line 206: `data?.pages.flatMap((page) => page.tweets) ?? []`. -/
def renderedTweets (data : Option InfiniteTimelineData) : List Tweet :=
  match data with
  | none => []
  | some d => d.pages.flatMap fun page => page.tweets

/-- Modelled from react-query v4: for an infinite query,
`getNextPageParam` is applied to the last fetched page (here
`(lastPage) => lastPage.nextCursor`, line 199) and `hasNextPage` is true
when the returned param is neither `undefined` nor `null` nor `false`;
while no data has been fetched `hasNextPage` is `undefined` (`none`). -/
def hasNextPageOf (data : Option InfiniteTimelineData) : Option Bool :=
  match data with
  | none => none
  | some d => d.pages.getLast?.map fun lastPage => lastPage.nextCursor.isSome

/-- JavaScript truthiness of the `boolean | undefined` value `hasNextPage`. -/
def jsTruthyOptBool : Option Bool → Bool
  | none => false
  | some b => b

/-- Line 222: `{!hasNextPage && <p>No more items to load</p>}` — whether the
end-of-feed indicator is rendered. -/
def showNoMoreItems (hasNextPage : Option Bool) : Bool :=
  !jsTruthyOptBool hasNextPage

/-- Lines 208-212: the effect body
`if (scrollPosition > 90 && hasNextPage && !isFetching) fetchNextPage()` —
whether a next-page fetch is requested. -/
def shouldFetchNextPage (scrollPosition : JSNum) (hasNextPage : Option Bool)
    (isFetching : Bool) : Bool :=
  jsGt scrollPosition (JSNum.num 90) && jsTruthyOptBool hasNextPage && !isFetching

/-- `handleScroll` (lines 56-67): computes the committed scroll percentage
from the DOM metrics.
`height = scrollHeight - clientHeight`,
`winScroll = document.body.scrollTop || document.documentElement.scrollTop`,
`scrolled = (winScroll / height) * 100`. -/
def handleScroll (scrollHeight clientHeight bodyScrollTop docScrollTop : JSNum) : JSNum :=
  let height := jsSub scrollHeight clientHeight
  let winScroll := jsOr bodyScrollTop docScrollTop
  jsMul (jsDiv winScroll height) (JSNum.num 100)

/-! ## `Tweet` rendering (src/components/Timeline.tsx, lines 131-192) -/

/-- Line 149: `const hasLiked = tweet.likes.length > 0`. -/
def hasLiked (tweet : Tweet) : Bool :=
  tweet.likes.length > 0

/-- Line 178: `color={hasLiked ? "red" : "gray"}`. -/
def heartColor (tweet : Tweet) : String :=
  if hasLiked tweet then "red" else "gray"

/-! ## dayjs relative time (locale from lines 15-34, plugin modelled from
dayjs's `relativeTime` plugin) -/

/-- The units in which the relativeTime plugin measures the difference
between the formatted timestamp and now. -/
inductive TimeUnit where
  | second
  | minute
  | hour
  | day
  | month
  | year
  deriving Repr, DecidableEq

/-- The locale keys of the relativeTime plugin's magnitude buckets. -/
inductive RelLabel where
  | s
  | m
  | mm
  | h
  | hh
  | d
  | dd
  | M
  | MM
  | y
  | yy
  deriving Repr, DecidableEq

/-- The relativeTime locale strings configured by
`dayjs.updateLocale("en", ...)` at lines 18-34. -/
structure RelLocale where
  future : String
  past : String
  s : String
  m : String
  mm : String
  h : String
  hh : String
  d : String
  dd : String
  M : String
  MM : String
  y : String
  yy : String
  deriving Repr, DecidableEq

/-- Lines 18-34 of Timeline.tsx. -/
def enLocale : RelLocale :=
  { future := "in %s", past := "%s ago", s := "1m", m := "1m", mm := "%dm",
    h := "1h", hh := "%dh", d := "1d", dd := "%dd", M := "1M", MM := "%dM",
    y := "1y", yy := "%dy" }

/-- Look up a bucket's format string in a locale. -/
def localeFormat (loc : RelLocale) : RelLabel → String
  | .s => loc.s
  | .m => loc.m
  | .mm => loc.mm
  | .h => loc.h
  | .hh => loc.hh
  | .d => loc.d
  | .dd => loc.dd
  | .M => loc.M
  | .MM => loc.MM
  | .y => loc.y
  | .yy => loc.yy

/-- Does `pat` occur at the head of the character list? -/
def firstMatches : List Char → List Char → Bool
  | [], _ => true
  | _ :: _, [] => false
  | p :: ps, c :: cs => p == c && firstMatches ps cs

/-- Replace the first occurrence of `pat` by `repl` (JavaScript
`String.prototype.replace` with a string pattern replaces only the first
occurrence). -/
def replaceFirstAux (pat repl : List Char) : List Char → List Char
  | [] => []
  | c :: cs =>
      if firstMatches pat (c :: cs) then repl ++ (c :: cs).drop pat.length
      else c :: replaceFirstAux pat repl cs

/-- JavaScript `s.replace(pat, repl)` for a string pattern. -/
def jsReplace (s pat repl : String) : String :=
  String.mk (replaceFirstAux pat.data repl.data s.data)

/-- JavaScript `Math.round`: `round x = ⌊x + 0.5⌋`. -/
def jsRound (q : ℚ) : ℤ := ⌊q + 1/2⌋

/-- One entry of the relativeTime plugin's threshold table: locale key
`l`, bound `r` (absent on the last entry, which always matches), and diff
unit `d` (absent when the previously computed diff is reused). -/
structure Threshold where
  l : RelLabel
  r : Option ℕ
  d : Option TimeUnit

/-- The plugin's default threshold table. -/
def thresholds : List Threshold :=
  [⟨RelLabel.s, some 44, some TimeUnit.second⟩,
   ⟨RelLabel.m, some 89, none⟩,
   ⟨RelLabel.mm, some 44, some TimeUnit.minute⟩,
   ⟨RelLabel.h, some 89, none⟩,
   ⟨RelLabel.hh, some 21, some TimeUnit.hour⟩,
   ⟨RelLabel.d, some 35, none⟩,
   ⟨RelLabel.dd, some 25, some TimeUnit.day⟩,
   ⟨RelLabel.M, some 45, none⟩,
   ⟨RelLabel.MM, some 10, some TimeUnit.month⟩,
   ⟨RelLabel.y, some 17, none⟩,
   ⟨RelLabel.yy, none, some TimeUnit.year⟩]

/-- The plugin's selection loop.  `diffIn u` is the exact signed
difference `createdAt - now` measured in unit `u` (for `fromNow` the
plugin computes `instance.diff(now, unit, true)`); `result` carries the
diff of the last entry that had a unit, `prev` the previous entry's label
(the plugin downgrades to it when the rounded magnitude is at most 1). -/
def selectBucketAux (diffIn : TimeUnit → ℚ) (result : ℚ) (prev : Option RelLabel) :
    List Threshold → RelLabel × ℕ × Bool
  | [] => (RelLabel.yy, 0, false)
  | t :: rest =>
      let res := match t.d with
        | some u => diffIn u
        | none => result
      let n : ℕ := (jsRound |res|).toNat
      let isFuture := decide (res > 0)
      match t.r with
      | none => (if n ≤ 1 then prev.getD t.l else t.l, n, isFuture)
      | some bound =>
          if n ≤ bound then (if n ≤ 1 then prev.getD t.l else t.l, n, isFuture)
          else selectBucketAux diffIn res (some t.l) rest

/-- Run the plugin's threshold loop on the full table. -/
def selectBucket (diffIn : TimeUnit → ℚ) : RelLabel × ℕ × Bool :=
  selectBucketAux diffIn 0 none thresholds

/-- `out = format.replace('%d', abs)`. -/
def bucketString (loc : RelLocale) (l : RelLabel) (n : ℕ) : String :=
  jsReplace (localeFormat loc l) "%d" (toString n)

/-- `dayjs(tweet.createdAt).fromNow()` (used at line 168): select the
bucket, substitute the count, then wrap with the locale's `future`/`past`
template via `%s`. -/
def fromNowStr (loc : RelLocale) (diffIn : TimeUnit → ℚ) : String :=
  match selectBucket diffIn with
  | (l, n, isFuture) =>
      let out := bucketString loc l n
      if isFuture then jsReplace loc.future "%s" out
      else jsReplace loc.past "%s" out

/-- Per-unit diffs of a timestamp 45 seconds in the past
(`createdAt - now = -45 s`). -/
def diff45sPast : TimeUnit → ℚ
  | TimeUnit.second => -45
  | TimeUnit.minute => -45 / 60
  | TimeUnit.hour => -45 / 3600
  | TimeUnit.day => -45 / 86400
  | TimeUnit.month => -45 / 2629746
  | TimeUnit.year => -45 / 31556952

/-- Per-unit diffs of a timestamp 5 minutes in the future
(`createdAt - now = +300 s`). -/
def diff5minFuture : TimeUnit → ℚ
  | TimeUnit.second => 300
  | TimeUnit.minute => 5
  | TimeUnit.hour => 5 / 60
  | TimeUnit.day => 5 / 1440
  | TimeUnit.month => 5 / 43800
  | TimeUnit.year => 5 / 525600

/-! ## Sample data for concrete instances -/

def authorAlice : Author := { name := "alice", image := some "https://example.com/alice.png" }

def authorBob : Author := { name := "bob", image := none }

def tweetA : Tweet :=
  { id := "A", text := "first", createdAt := 1000, author := authorAlice, likes := [] }

def tweetB : Tweet :=
  { id := "B", text := "second", createdAt := 2000, author := authorBob, likes := ["u9"] }

def tweetC : Tweet :=
  { id := "C", text := "third", createdAt := 3000, author := authorAlice, likes := [] }

def pageOne : TimelinePage := { tweets := [tweetA, tweetB], nextCursor := some "X" }

def pageTwo : TimelinePage := { tweets := [tweetC], nextCursor := none }

/-- Both pages fetched. -/
def sampleData : InfiniteTimelineData :=
  { pages := [pageOne, pageTwo], pageParams := [none, some "X"] }

/-- Only the first page fetched (a next cursor is still available). -/
def firstPageOnly : InfiniteTimelineData :=
  { pages := [pageOne], pageParams := [none] }

/-! ## Helper lemmas -/

/-- `patchLikes` never changes a tweet's id. -/
theorem patchLikes_id (tid uid : String) (a : Action) (t : Tweet) :
    (patchLikes tid uid a t).id = t.id := by
  unfold patchLikes
  split <;> rfl

/-- `patchLikes` leaves non-targeted tweets untouched. -/
theorem patchLikes_ne (tid uid : String) (a : Action) (t : Tweet) (h : t.id ≠ tid) :
    patchLikes tid uid a t = t := by
  simp [patchLikes, h]

/-- `patchLikes` on the targeted tweet rewrites only `likes`. -/
theorem patchLikes_target (tid uid : String) (a : Action) (t : Tweet) (h : t.id = tid) :
    patchLikes tid uid a t = { t with likes := if a = Action.like then [uid] else [] } := by
  simp [patchLikes, h]

/-- The updater applied to a present cache entry, in explicit form. -/
theorem updateCacheUpdater_some (tid uid : String) (a : Action) (data : InfiniteTimelineData) :
    updateCacheUpdater tid uid a (some data) =
      Except.ok
        { pages := data.pages.map fun page =>
            { tweets := page.tweets.map (patchLikes tid uid a), nextCursor := none },
          pageParams := data.pageParams } := rfl

/-- The flattened tweets of the patched cache value are the patched
flattened tweets. -/
theorem cacheTweets_patched (tid uid : String) (a : Action) (data : InfiniteTimelineData) :
    cacheTweets
        { pages := data.pages.map fun page =>
            { tweets := page.tweets.map (patchLikes tid uid a), nextCursor := none },
          pageParams := data.pageParams } =
      (cacheTweets data).map (patchLikes tid uid a) := by
  simp [cacheTweets, List.flatMap_map, List.map_flatMap]

/-! ## Claim theorems -/

/-- Claim C1 (code bug): the spec says the per-user page's
`where: { author: { name } }` filter is forwarded into the timeline query
input alongside `limit: 10`.  The page does build and pass that filter
object, but `Timeline()` is declared without props, so the query input is
always `{ limit: 10 }` with no `where` member — for no route name `n`
does the issued input contain the page's filter. -/
theorem c1_page_filter_dropped :
    timelineQueryInput.whereFilter = none ∧
    (∀ n : Option String,
      timelineQueryInput ≠ { limit := 10, whereFilter := some (usePageWhereProp n) }) ∧
    usePageWhereProp (some "alice") = { author := { name := some "alice" } } ∧
    usePageWhereProp none = { author := { name := none } } := by
  refine ⟨rfl, fun n => ?_, rfl, rfl⟩
  simp [timelineQueryInput]

/-- Claim C2: for every cached paginated state, every tweet id present in
some cached page and every acting user id, a successful like patches the
cache so that every tweet with that id has likes `[userId]`, and a
successful unlike patches it to `[]`; the tweet id remains present. -/
theorem c2_like_unlike_cache_patch (data : InfiniteTimelineData) (tid uid : String)
    (hmem : ∃ tw ∈ cacheTweets data, tw.id = tid) :
    ∃ d₁ d₂,
      updateCache tid uid Action.like (some data) = Except.ok (some d₁) ∧
      updateCache tid uid Action.unlike (some data) = Except.ok (some d₂) ∧
      (∃ tw ∈ cacheTweets d₁, tw.id = tid) ∧
      (∀ tw ∈ cacheTweets d₁, tw.id = tid → tw.likes = [uid]) ∧
      (∃ tw ∈ cacheTweets d₂, tw.id = tid) ∧
      (∀ tw ∈ cacheTweets d₂, tw.id = tid → tw.likes = []) := by
  obtain ⟨tw, htw, hid⟩ := hmem
  refine ⟨_, _, rfl, rfl, ?_, ?_, ?_, ?_⟩
  · rw [cacheTweets_patched]
    exact ⟨patchLikes tid uid Action.like tw, List.mem_map_of_mem _ htw,
      (patchLikes_id ..).trans hid⟩
  · rw [cacheTweets_patched]
    intro tw' htw' hid'
    obtain ⟨s, hs, rfl⟩ := List.mem_map.mp htw'
    have hsid : s.id = tid := (patchLikes_id ..).symm.trans hid'
    rw [patchLikes_target _ _ _ _ hsid]
    rfl
  · rw [cacheTweets_patched]
    exact ⟨patchLikes tid uid Action.unlike tw, List.mem_map_of_mem _ htw,
      (patchLikes_id ..).trans hid⟩
  · rw [cacheTweets_patched]
    intro tw' htw' hid'
    obtain ⟨s, hs, rfl⟩ := List.mem_map.mp htw'
    have hsid : s.id = tid := (patchLikes_id ..).symm.trans hid'
    rw [patchLikes_target _ _ _ _ hsid]
    rfl

/-- Witness for C2 at tweet "A" of the two-page sample cache and acting
user "u1". -/
theorem c2_like_unlike_cache_patch_witness :
    (∃ tw ∈ cacheTweets sampleData, tw.id = "A") ∧
    (∃ d₁ d₂,
      updateCache "A" "u1" Action.like (some sampleData) = Except.ok (some d₁) ∧
      updateCache "A" "u1" Action.unlike (some sampleData) = Except.ok (some d₂) ∧
      (∃ tw ∈ cacheTweets d₁, tw.id = "A") ∧
      (∀ tw ∈ cacheTweets d₁, tw.id = "A" → tw.likes = ["u1"]) ∧
      (∃ tw ∈ cacheTweets d₂, tw.id = "A") ∧
      (∀ tw ∈ cacheTweets d₂, tw.id = "A" → tw.likes = [])) :=
  ⟨by decide, c2_like_unlike_cache_patch sampleData "A" "u1" (by decide)⟩

/-- Counterexample to C3: on a one-page cache whose page carries
`nextCursor: "X"`, the like patch rewrites the page to an object without a
`nextCursor` property, so the continuation token is not preserved. -/
theorem c3_nextCursor_dropped_cex :
    (updateCacheUpdater "A" "u1" Action.like (some firstPageOnly)).map
        (fun d => d.pages.map fun p => p.nextCursor) = Except.ok [none] ∧
    firstPageOnly.pages.map (fun p => p.nextCursor) = [some "X"] ∧
    ([none] : List (Option String)) ≠ [some "X"] :=
  ⟨rfl, by decide, by decide⟩

/-- Claim C3 as amended: the like/unlike patch preserves `pageParams`, the
page list's length and order, every tweet's position and id, and every
non-targeted tweet byte-for-byte — but each rebuilt page loses its
`nextCursor` (read back as `undefined`) instead of preserving it. -/
theorem c3_cache_patch_frame (data : InfiniteTimelineData) (tid uid : String) (a : Action) :
    ∃ d₁, updateCache tid uid a (some data) = Except.ok (some d₁) ∧
      d₁.pageParams = data.pageParams ∧
      List.Forall₂ (fun (old new : TimelinePage) =>
          new.nextCursor = none ∧
          List.Forall₂ (fun (o n : Tweet) => n.id = o.id ∧ (o.id ≠ tid → n = o))
            old.tweets new.tweets)
        data.pages d₁.pages := by
  refine ⟨_, rfl, rfl, ?_⟩
  rw [List.forall₂_map_right_iff, List.forall₂_same]
  intro p hp
  refine ⟨rfl, ?_⟩
  rw [List.forall₂_map_right_iff, List.forall₂_same]
  intro t ht
  exact ⟨patchLikes_id .., fun hne => patchLikes_ne _ _ _ _ hne⟩

/-- Counterexample to C4: on an absent cache entry the patch throws (it is
not a non-fatal no-op), and even with the target id absent from a present
cache the patch visibly changes the cached value (the cursor is dropped). -/
theorem c4_absent_cases_cex :
    updateCache "A" "u1" Action.like none =
      Except.error "TypeError: cannot read properties of undefined (reading pages)" ∧
    ∃ d₁, updateCache "Z" "u1" Action.like (some firstPageOnly) = Except.ok (some d₁) ∧
      d₁ ≠ firstPageOnly :=
  ⟨rfl, _, rfl, by decide⟩

/-- Claim C4 as amended: when the cache entry is present and the targeted
id occurs in no cached page, the patch does not throw and leaves every
page's tweet list unchanged (it still rewrites the pages, clearing their
cursors); on an absent/uninitialized cache entry the updater throws a
`TypeError` instead of being a no-op. -/
theorem c4_absent_target_noop (data : InfiniteTimelineData) (tid uid : String) (a : Action)
    (habs : ∀ tw ∈ cacheTweets data, tw.id ≠ tid) :
    (∃ d₁, updateCache tid uid a (some data) = Except.ok (some d₁) ∧
      d₁.pages.map (fun p => p.tweets) = data.pages.map fun p => p.tweets) ∧
    updateCache tid uid a none =
      Except.error "TypeError: cannot read properties of undefined (reading pages)" := by
  refine ⟨⟨_, rfl, ?_⟩, rfl⟩
  rw [List.map_map]
  apply List.map_congr_left
  intro p hp
  show p.tweets.map (patchLikes tid uid a) = p.tweets
  calc p.tweets.map (patchLikes tid uid a) = p.tweets.map id := by
        apply List.map_congr_left
        intro t ht
        exact patchLikes_ne _ _ _ _ (habs t (List.mem_flatMap.mpr ⟨p, hp, ht⟩))
    _ = p.tweets := List.map_id _

/-- Witness for C4 (amended) at id "Z", absent from the one-page sample
cache. -/
theorem c4_absent_target_noop_witness :
    (∀ tw ∈ cacheTweets firstPageOnly, tw.id ≠ "Z") ∧
    ((∃ d₁, updateCache "Z" "u1" Action.like (some firstPageOnly) = Except.ok (some d₁) ∧
      d₁.pages.map (fun p => p.tweets) = firstPageOnly.pages.map fun p => p.tweets) ∧
    updateCache "Z" "u1" Action.like none =
      Except.error "TypeError: cannot read properties of undefined (reading pages)") :=
  ⟨by decide, c4_absent_target_noop firstPageOnly "Z" "u1" Action.like (by decide)⟩

/-- Counterexample to C5: before any page has loaded (`data` absent,
`hasNextPage` undefined) the code renders "No more items to load", while
the claim says the indicator is not shown in that state. -/
theorem c5_indicator_before_load_cex : showNoMoreItems (hasNextPageOf none) = true := rfl

/-- Claim C5 as amended: once pages are loaded, the indicator is rendered
exactly when the last fetched page has no next cursor — in particular it
is absent after only the first of the two sample pages — but before any
page has loaded `hasNextPage` is undefined (falsy), so the indicator is
rendered then as well. -/
theorem c5_no_more_items_indicator :
    (∀ (data : InfiniteTimelineData) (ps : List TimelinePage) (p : TimelinePage),
      data.pages = ps ++ [p] →
        (showNoMoreItems (hasNextPageOf (some data)) = true ↔ p.nextCursor = none)) ∧
    showNoMoreItems (hasNextPageOf none) = true ∧
    showNoMoreItems (hasNextPageOf (some firstPageOnly)) = false ∧
    showNoMoreItems (hasNextPageOf (some sampleData)) = true := by
  refine ⟨?_, rfl, by decide, by decide⟩
  intro data ps p hp
  simp [showNoMoreItems, hasNextPageOf, hp, List.getLast?_concat, jsTruthyOptBool]

/-- Witness for C5 (amended) on the two-page sample cache. -/
theorem c5_no_more_items_indicator_witness :
    sampleData.pages = [pageOne] ++ [pageTwo] ∧
    (showNoMoreItems (hasNextPageOf (some sampleData)) = true ↔ pageTwo.nextCursor = none) :=
  ⟨rfl, c5_no_more_items_indicator.1 sampleData [pageOne] pageTwo rfl⟩

/-- Claim C6: the effect requests a next page exactly when the debounced
scroll percentage exceeds 90, a further page exists (`hasNextPage` is
true) and no fetch is in flight; with a fetch in flight no request is ever
issued, regardless of scroll position and cursor state. -/
theorem c6_fetch_guard :
    (∀ (s : JSNum) (h : Option Bool) (f : Bool),
      shouldFetchNextPage s h f = true ↔
        (jsGt s (JSNum.num 90) = true ∧ h = some true ∧ f = false)) ∧
    (∀ (s : JSNum) (h : Option Bool), shouldFetchNextPage s h true = false) := by
  constructor
  · intro s h f
    rcases h with _ | b
    · simp [shouldFetchNextPage, jsTruthyOptBool]
    · cases b <;> cases f <;> simp [shouldFetchNextPage, jsTruthyOptBool]
  · intro s h
    simp [shouldFetchNextPage]

/-- Claim C7: the rendered list is the concatenation of the fetched
pages' tweet lists in fetch order; with no data it is empty; on the
sample pages `[{tweets: [A, B], nextCursor: X}, {tweets: [C]}]` it is
`[A, B, C]`. -/
theorem c7_flattened_pages :
    (∀ (pages : List TimelinePage) (pp : List (Option String)),
      renderedTweets (some { pages := pages, pageParams := pp }) =
        (pages.map fun p => p.tweets).flatten) ∧
    renderedTweets none = [] ∧
    renderedTweets (some sampleData) = [tweetA, tweetB, tweetC] := by
  refine ⟨?_, rfl, by decide⟩
  intro pages pp
  simp [renderedTweets, List.flatMap_def]

/-- Claim C8: the heart renders "red" exactly when the tweet's liking-user
list is non-empty and "gray" exactly when it is empty, and the rendered
color depends only on the `likes` field. -/
theorem c8_heart_color (t : Tweet) :
    (heartColor t = "red" ↔ t.likes ≠ []) ∧
    (heartColor t = "gray" ↔ t.likes = []) ∧
    (∀ t' : Tweet, t'.likes = t.likes → heartColor t' = heartColor t) := by
  refine ⟨?_, ?_, ?_⟩
  · cases h : t.likes <;> simp [heartColor, hasLiked, h]
  · cases h : t.likes <;> simp [heartColor, hasLiked, h]
  · intro t' h
    simp [heartColor, hasLiked, h]

/-- Claim C9: with the configured locale, every magnitude bucket renders
the spec's exact string (`1m`, `{n}m`, `1h`, `{n}h`, `1d`, `{n}d`, `1M`,
`{n}M`, `1y`, `{n}y`), past values are wrapped as `"... ago"` and future
values as `"in ..."`; a timestamp 45 seconds in the past renders
`"1m ago"` and one 5 minutes in the future renders `"in 5m"`. -/
theorem c9_relative_time_locale :
    (∀ n : ℕ,
      bucketString enLocale RelLabel.s n = "1m" ∧
      bucketString enLocale RelLabel.m n = "1m" ∧
      bucketString enLocale RelLabel.mm n = toString n ++ "m" ∧
      bucketString enLocale RelLabel.h n = "1h" ∧
      bucketString enLocale RelLabel.hh n = toString n ++ "h" ∧
      bucketString enLocale RelLabel.d n = "1d" ∧
      bucketString enLocale RelLabel.dd n = toString n ++ "d" ∧
      bucketString enLocale RelLabel.M n = "1M" ∧
      bucketString enLocale RelLabel.MM n = toString n ++ "M" ∧
      bucketString enLocale RelLabel.y n = "1y" ∧
      bucketString enLocale RelLabel.yy n = toString n ++ "y") ∧
    (∀ out : String,
      jsReplace enLocale.past "%s" out = out ++ " ago" ∧
      jsReplace enLocale.future "%s" out = "in " ++ out) ∧
    fromNowStr enLocale diff45sPast = "1m ago" ∧
    fromNowStr enLocale diff5minFuture = "in 5m" := by
  refine ⟨fun n => ⟨rfl, rfl, rfl, rfl, rfl, rfl, rfl, rfl, rfl, rfl, rfl⟩,
    fun out => ⟨rfl, ?_⟩, ?_, ?_⟩
  · calc jsReplace enLocale.future "%s" out
        = String.mk ('i' :: 'n' :: ' ' :: (out.data ++ [])) := rfl
      _ = String.mk ('i' :: 'n' :: ' ' :: out.data) := by rw [List.append_nil]
      _ = "in " ++ out := rfl
  · have hsel : selectBucket diff45sPast = (RelLabel.m, 45, false) := by
      norm_num [selectBucket, selectBucketAux, thresholds, diff45sPast, jsRound]
      decide
    simp only [fromNowStr, hsel]
    rfl
  · have hsel : selectBucket diff5minFuture = (RelLabel.mm, 5, true) := by
      norm_num [selectBucket, selectBucketAux, thresholds, diff5minFuture, jsRound]
      decide
    simp only [fromNowStr, hsel]
    rfl

/-- Claim C10: when the document is not scrollable (scroll height equals
viewport height) and the scroll offsets are 0, the computed percentage is
the unguarded `0 / 0 = NaN` — not a number in 0 to 100 — and since
`NaN > 90` is false, no next-page fetch is ever triggered from such an
event, whatever the cursor and in-flight state. -/
theorem c10_unscrollable_nan (sh ch bst dst : ℚ)
    (hEq : sh = ch) (hb : bst = 0) (hd : dst = 0) :
    handleScroll (JSNum.num sh) (JSNum.num ch) (JSNum.num bst) (JSNum.num dst) = JSNum.nan ∧
    (∀ q : ℚ,
      handleScroll (JSNum.num sh) (JSNum.num ch) (JSNum.num bst) (JSNum.num dst) ≠ JSNum.num q) ∧
    (∀ (h : Option Bool) (f : Bool),
      shouldFetchNextPage
        (handleScroll (JSNum.num sh) (JSNum.num ch) (JSNum.num bst) (JSNum.num dst)) h f
        = false) := by
  subst hEq hb hd
  have hmain :
      handleScroll (JSNum.num sh) (JSNum.num sh) (JSNum.num 0) (JSNum.num 0) = JSNum.nan := by
    simp [handleScroll, jsSub, jsOr, jsTruthy, jsDiv, jsMul, sub_self]
  refine ⟨hmain, ?_, ?_⟩
  · intro q
    rw [hmain]
    simp
  · intro h f
    rw [hmain]
    simp [shouldFetchNextPage, jsGt]

/-- Witness for C10 with a 600-pixel document in a 600-pixel viewport. -/
theorem c10_unscrollable_nan_witness :
    handleScroll (JSNum.num 600) (JSNum.num 600) (JSNum.num 0) (JSNum.num 0) = JSNum.nan ∧
    (∀ q : ℚ,
      handleScroll (JSNum.num 600) (JSNum.num 600) (JSNum.num 0) (JSNum.num 0) ≠ JSNum.num q) ∧
    (∀ (h : Option Bool) (f : Bool),
      shouldFetchNextPage
        (handleScroll (JSNum.num 600) (JSNum.num 600) (JSNum.num 0) (JSNum.num 0)) h f
        = false) :=
  c10_unscrollable_nan 600 600 0 0 rfl rfl rfl

end T3Twitter
